import Mathlib

/-!
Verification of the weather-dashboard forecast aggregation, scoring and
alert logic, shallowly embedded from the Python sources
(`src/weather_service.py`, `src/analyzer.py`, `src/alerts.py`).

Python floats are modelled as rationals (ℚ); Python `round(x, 1)` is
modelled as round-half-to-even of `10 * x`, divided by 10.  Fallible
fetches (`WeatherService.get_daily_summary`, which either returns a list
of daily summaries or raises with a message) are modelled as
`Except String (List DailySummary)`.
-/

namespace WeatherDashboard

/-- One daily summary record, as built by
`WeatherService.get_daily_summary` (dict keys become fields). -/
structure DailySummary where
  date : String
  temp_avg : ℚ
  temp_min : ℚ
  temp_max : ℚ
  avg_humidity : ℚ
  max_wind_speed : ℚ
  rain_probability : ℚ
  description : String
  deriving DecidableEq, Repr

/-- One 3-hour forecast entry, restricted to the fields
`get_daily_summary` reads (temperature, description, humidity,
wind_speed, rain_probability). -/
structure ForecastEntry where
  temperature : ℚ
  description : String
  humidity : ℚ
  wind_speed : ℚ
  rain_probability : ℚ
  deriving DecidableEq, Repr

/-- Round-half-to-even to the nearest integer, the rounding mode of
Python's builtin `round`. -/
def roundHalfEven (q : ℚ) : ℤ :=
  if q - ⌊q⌋ = 1 / 2 then (if (2 : ℤ) ∣ ⌊q⌋ then ⌊q⌋ else ⌊q⌋ + 1) else round q

/-- Python `round(x, 1)`. -/
def round1 (q : ℚ) : ℚ := (roundHalfEven (10 * q) : ℚ) / 10

/-- Python `min(l)` for a nonempty list (`min` of an empty list raises in
Python; the `[]` case is unreachable in `get_daily_summary`, whose groups
always hold at least one entry). -/
def pyMin : List ℚ → ℚ
  | [] => 0
  | x :: xs => xs.foldl min x

/-- Python `max(l)` for a nonempty list. -/
def pyMax : List ℚ → ℚ
  | [] => 0
  | x :: xs => xs.foldl max x

/-- Python `max(iterable, key=k)` for a nonempty list of strings: keeps the
first element and replaces it only when a strictly larger key appears, so
the FIRST maximal element of the iterable wins. -/
def pyMaxByKey (key : String → ℕ) : List String → String
  | [] => ""
  | x :: xs => xs.foldl (fun best y => if key y > key best then y else best) x

/-- The `description` computation of `get_daily_summary`:
`max(set(descriptions), key=descriptions.count)`.  Python's `set` has an
unspecified iteration order, so the order is passed explicitly as
`setOrder`, an arbitrary permutation of the distinct descriptions. -/
def modalDescription (setOrder : List String) (descriptions : List String) : String :=
  pyMaxByKey (fun s => descriptions.count s) setOrder

/-- The per-day body of `get_daily_summary` (src/weather_service.py lines
132-144): builds one `DailySummary` from one date's group of entries.
`setOrder` stands for the iteration order of `set(data["descriptions"])`. -/
def summarizeDay (date : String) (entries : List ForecastEntry)
    (setOrder : List String) : DailySummary :=
  let temperatures := entries.map (·.temperature)
  let descriptions := entries.map (·.description)
  let humidity := entries.map (·.humidity)
  let wind_speeds := entries.map (·.wind_speed)
  let rain_probabilities := entries.map (·.rain_probability)
  { date := date
    temp_avg := round1 (temperatures.sum / temperatures.length)
    temp_min := round1 (pyMin temperatures)
    temp_max := round1 (pyMax temperatures)
    avg_humidity := round1 (humidity.sum / humidity.length)
    max_wind_speed := round1 (pyMax wind_speeds)
    rain_probability := round1 (pyMax rain_probabilities)
    description := modalDescription setOrder descriptions }

/-- Modelled from the spec: "description (the most frequently occurring
description string among that day's entries; ties broken by
first-encountered order)".  Scans the day's descriptions in group order
and keeps the first one whose occurrence count is maximal. -/
def firstEncounteredMode (descriptions : List String) : String :=
  pyMaxByKey (fun s => descriptions.count s) descriptions

/-- The temperature block of `calculate_day_score` (src/analyzer.py lines
37-53): the amount the block subtracts from `score`. -/
def temp_penalty (pmin pmax t : ℚ) : ℚ :=
  let preferred_temp_avg := (pmin + pmax) / 2
  if t < pmin then min ((pmin - t) * 2) 40
  else if t > pmax then min ((t - pmax) * 2) 40
  else |t - preferred_temp_avg| * 1

/-- The rain-probability block of `calculate_day_score` (lines 55-65). -/
def rain_penalty (rain_prob : ℚ) : ℚ :=
  if rain_prob > 70 then 30
  else if rain_prob > 50 then 20
  else if rain_prob > 30 then 10
  else if rain_prob > 10 then 5
  else 0

/-- The wind-speed block of `calculate_day_score` (lines 67-75). -/
def wind_penalty (wind_speed : ℚ) : ℚ :=
  if wind_speed > 15 then 15
  else if wind_speed > 10 then 10
  else if wind_speed > 7 then 5
  else 0

/-- The humidity block of `calculate_day_score` (lines 77-85). -/
def humidity_penalty (humidity : ℚ) : ℚ :=
  if humidity > 85 then 15
  else if humidity > 70 then 8
  else if humidity < 30 then 5
  else 0

/-- `WeatherAnalyzer.calculate_day_score` (src/analyzer.py lines 24-88),
with the analyzer's preferred range passed explicitly.  `score` starts at
100 and each block's `score -= ...` statements subtract the block's
penalty (the branch conditions read only `day_data`, never `score`, so
the sequential reassignment is this running difference); the final
`max(score, 0)` is the outer `max`. -/
def calculate_day_score (pmin pmax : ℚ) (day : DailySummary) : ℚ :=
  max (100 - temp_penalty pmin pmax day.temp_avg
           - rain_penalty day.rain_probability
           - wind_penalty day.max_wind_speed
           - humidity_penalty day.avg_humidity) 0

/-- The per-day dict of `find_best_day`: `{'date': ..., 'score': ..., 'data': ...}`. -/
structure ScoredDayEntry where
  date : String
  score : ℚ
  data : DailySummary
  deriving DecidableEq, Repr

/-- The reasoning strings of `WeatherAnalyzer._generate_reasoning`,
modelled by which format string is emitted. -/
inductive Reason where
  | comfortableTemp | coolerThanIdeal | warmerThanIdeal
  | veryLowRain | lowRain | moderateRain | highRain
  | calmWinds | lightBreeze | windyConditions
  | perfectConditions | greatDay | goodDay | fairDay | challengingWeather
  deriving DecidableEq, Repr

/-- `WeatherAnalyzer._generate_reasoning` (src/analyzer.py lines 133-187). -/
def generate_reasoning (pmin pmax : ℚ) (day : DailySummary) (score : ℚ) : List Reason :=
  let tempReason : Reason :=
    if pmin ≤ day.temp_avg ∧ day.temp_avg ≤ pmax then .comfortableTemp
    else if day.temp_avg < pmin then .coolerThanIdeal
    else .warmerThanIdeal
  let rainReason : Reason :=
    if day.rain_probability < 10 then .veryLowRain
    else if day.rain_probability < 30 then .lowRain
    else if day.rain_probability < 50 then .moderateRain
    else .highRain
  let windReason : Reason :=
    if day.max_wind_speed < 5 then .calmWinds
    else if day.max_wind_speed < 10 then .lightBreeze
    else .windyConditions
  let overall : Reason :=
    if score ≥ 90 then .perfectConditions
    else if score ≥ 75 then .greatDay
    else if score ≥ 60 then .goodDay
    else if score ≥ 40 then .fairDay
    else .challengingWeather
  [tempReason, rainReason, windReason, overall]

/-- Result of `WeatherAnalyzer.find_best_day`: either the error dict
`{'error': msg}` or the success dict with date, score, weather,
reasoning and all scored days. -/
inductive FindBestDayResult where
  | error (msg : String)
  | ok (date : String) (score : ℚ) (weather : DailySummary)
      (reasoning : List Reason) (all_days : List ScoredDayEntry)
  deriving DecidableEq, Repr

/-- The scored-day list built by `find_best_day`'s loop. -/
def scoreDays (pmin pmax : ℚ) (l : List DailySummary) : List ScoredDayEntry :=
  l.map fun day => ⟨day.date, calculate_day_score pmin pmax day, day⟩

/-- `WeatherAnalyzer.find_best_day` (src/analyzer.py lines 90-131).  The
fallible `get_daily_summary` call is the `fetch` argument: `.error e`
models the call raising with message `e` (Python `str(e)`), `.ok l` a
successful return.  `max(scored_days, key=lambda x: x['score'])` keeps
the first element whose score is maximal (replacement only on a strictly
greater key). -/
def find_best_day (pmin pmax : ℚ)
    (fetch : Except String (List DailySummary)) : FindBestDayResult :=
  match fetch with
  | .error e => .error ("Error analyzing forecast: " ++ e)
  | .ok daily_summary =>
    match daily_summary with
    | [] => .error "No forecast data available"
    | d :: rest =>
      let scored_days := scoreDays pmin pmax (d :: rest)
      let best_day := (scoreDays pmin pmax rest).foldl
        (fun best x => if x.score > best.score then x else best)
        ⟨d.date, calculate_day_score pmin pmax d, d⟩
      .ok best_day.date best_day.score best_day.data
        (generate_reasoning pmin pmax best_day.data best_day.score) scored_days

/-- One row of `compare_days`' output.  The f-string
`f"{temp_min}°C - {temp_max}°C"` is modelled as the pair of its
operands. -/
structure CompareEntry where
  date : String
  score : ℚ
  temp_avg : ℚ
  temp_range : ℚ × ℚ
  rain_prob : ℚ
  description : String
  deriving DecidableEq, Repr

/-- The per-day row built inside `compare_days`' loop
(`'score': round(score, 1)` and the display fields). -/
def mkCompareEntry (pmin pmax : ℚ) (day : DailySummary) : CompareEntry :=
  { date := day.date
    score := round1 (calculate_day_score pmin pmax day)
    temp_avg := day.temp_avg
    temp_range := (day.temp_min, day.temp_max)
    rain_prob := day.rain_probability
    description := day.description }

/-- The ordering of `scored_days.sort(key=lambda x: x['score'], reverse=True)`:
`a` may sit (weakly) before `b` when `b`'s score is at most `a`'s. -/
def scoreDescRel (a b : CompareEntry) : Prop := b.score ≤ a.score

instance : DecidableRel scoreDescRel :=
  fun a b => inferInstanceAs (Decidable (b.score ≤ a.score))

instance : IsTotal CompareEntry scoreDescRel :=
  ⟨fun a b => le_total b.score a.score⟩

instance : IsTrans CompareEntry scoreDescRel :=
  ⟨fun _ _ _ hab hbc => le_trans hbc hab⟩

/-- `WeatherAnalyzer.compare_days` (src/analyzer.py lines 189-220).
Python's `list.sort` is specified as a stable sort, and a stable sort by
a fixed total preorder is a unique function of its input, so it is
embedded as a stable insertion sort by descending score.  The
`except Exception: return []` handler is the `.error` branch. -/
def compare_days (pmin pmax : ℚ)
    (fetch : Except String (List DailySummary)) : List CompareEntry :=
  match fetch with
  | .error _ => []
  | .ok daily_summary =>
    List.insertionSort scoreDescRel (daily_summary.map (mkCompareEntry pmin pmax))

/-- The status strings of an alert dict from
`TemperatureAlerts.check_current_temperature`. -/
inductive Status where
  | comfortable | too_cold | too_hot | error
  deriving DecidableEq, Repr

/-- The severity strings of an alert dict.  Python's `'none'` is
`sevNone`. -/
inductive Severity where
  | sevNone | medium | high | extreme
  deriving DecidableEq, Repr

/-- The message of an alert dict, modelled by which format string is
emitted. -/
inductive MessageKind where
  | comfortableMsg | coldAlertMsg | heatAlertMsg
  | extremeColdMsg | extremeHeatMsg | errorMsg
  deriving DecidableEq, Repr

/-- An alert dict from `check_current_temperature` (the pass-through
`city` field is omitted; `temperature` is absent — `none` — in the error
dict). -/
structure Alert where
  temperature : Option ℚ
  status : Status
  severity : Severity
  message : MessageKind
  deriving DecidableEq, Repr

/-- `TemperatureAlerts.check_current_temperature` (src/alerts.py lines
24-76), with the comfortable range passed explicitly and the fallible
current-weather fetch modelled as `Except String ℚ` (only the
temperature field is read). -/
def check_current_temperature (pmin pmax : ℚ) (fetch : Except String ℚ) : Alert :=
  match fetch with
  | .error _ =>
    { temperature := none, status := .error, severity := .sevNone, message := .errorMsg }
  | .ok temp =>
    let alert : Alert :=
      { temperature := some temp, status := .comfortable,
        severity := .sevNone, message := .comfortableMsg }
    let alert :=
      if temp < pmin then
        { alert with status := .too_cold,
                     severity := if pmin - temp > 10 then .high else .medium,
                     message := .coldAlertMsg }
      else if temp > pmax then
        { alert with status := .too_hot,
                     severity := if temp - pmax > 10 then .high else .medium,
                     message := .heatAlertMsg }
      else alert
    if temp < 0 then { alert with severity := .extreme, message := .extremeColdMsg }
    else if temp > 35 then { alert with severity := .extreme, message := .extremeHeatMsg }
    else alert

/-- One entry of `find_comfortable_days`' output (a projection of the
day's summary). -/
structure ComfortableDay where
  date : String
  temp_avg : ℚ
  temp_min : ℚ
  temp_max : ℚ
  description : String
  rain_probability : ℚ
  deriving DecidableEq, Repr

/-- The projection applied to each qualifying day by
`find_comfortable_days`. -/
def comfortableProj (d : DailySummary) : ComfortableDay :=
  ⟨d.date, d.temp_avg, d.temp_min, d.temp_max, d.description, d.rain_probability⟩

/-- The loop body of `find_comfortable_days` (src/alerts.py lines
151-164): nested conditions `min <= temp_avg <= max` and
`temp_min >= min - 5 and temp_max <= max + 5`. -/
def comfortableLoop (pmin pmax : ℚ) : List DailySummary → List ComfortableDay
  | [] => []
  | d :: rest =>
    if pmin ≤ d.temp_avg ∧ d.temp_avg ≤ pmax then
      if d.temp_min ≥ pmin - 5 ∧ d.temp_max ≤ pmax + 5 then
        comfortableProj d :: comfortableLoop pmin pmax rest
      else comfortableLoop pmin pmax rest
    else comfortableLoop pmin pmax rest

/-- `TemperatureAlerts.find_comfortable_days` (src/alerts.py lines
137-169); the `except Exception: return []` handler is the `.error`
branch. -/
def find_comfortable_days (pmin pmax : ℚ)
    (fetch : Except String (List DailySummary)) : List ComfortableDay :=
  match fetch with
  | .error _ => []
  | .ok daily_summary => comfortableLoop pmin pmax daily_summary

/-- Concrete example day for the ranking example: under the preferred
range 15-25 it scores 50 (rain 80 → -30, wind 20 → -15, humidity 20 →
-5). -/
def dayScore50 : DailySummary :=
  { date := "2024-01-01", temp_avg := 20, temp_min := 15, temp_max := 25,
    avg_humidity := 20, max_wind_speed := 20, rain_probability := 80,
    description := "Rain" }

/-- Concrete example day scoring 80 under the preferred range 15-25
(rain 60 → -20). -/
def dayScore80a : DailySummary :=
  { date := "2024-01-02", temp_avg := 20, temp_min := 15, temp_max := 25,
    avg_humidity := 50, max_wind_speed := 0, rain_probability := 60,
    description := "Clouds" }

/-- A second example day scoring 80, distinguishable from `dayScore80a`
by its date. -/
def dayScore80b : DailySummary :=
  { date := "2024-01-03", temp_avg := 20, temp_min := 15, temp_max := 25,
    avg_humidity := 50, max_wind_speed := 0, rain_probability := 60,
    description := "Clouds" }

/-! ### Rounding lemmas -/

theorem round_tie_eq (q : ℚ) (h : q - ⌊q⌋ = 1 / 2) : round q = ⌊q⌋ + 1 := by
  rw [round_eq]
  have hq : q + 1 / 2 = ((⌊q⌋ + 1 : ℤ) : ℚ) := by push_cast; linarith
  rw [hq, Int.floor_intCast]

theorem roundHalfEven_le_round (q : ℚ) : roundHalfEven q ≤ round q := by
  unfold roundHalfEven
  split
  · next htie =>
    rw [round_tie_eq q htie]
    split <;> omega
  · exact le_refl _

theorem round_rat_mono {x y : ℚ} (h : x ≤ y) : round x ≤ round y := by
  rw [round_eq, round_eq]
  exact Int.floor_mono (by linarith)

theorem roundHalfEven_mono {x y : ℚ} (h : x ≤ y) : roundHalfEven x ≤ roundHalfEven y := by
  rcases eq_or_lt_of_le h with rfl | hlt
  · exact le_refl _
  by_cases hty : y - ⌊y⌋ = 1 / 2
  · by_cases hey : (2 : ℤ) ∣ ⌊y⌋
    · -- tie at `y` with even floor: result is `⌊y⌋`
      have hrh : roundHalfEven y = ⌊y⌋ := by
        unfold roundHalfEven; rw [if_pos hty, if_pos hey]
      have hx2 : x + 1 / 2 < ((⌊y⌋ + 1 : ℤ) : ℚ) := by push_cast; linarith
      have hfl : ⌊x + 1 / 2⌋ < ⌊y⌋ + 1 := Int.floor_lt.mpr hx2
      have h1 := roundHalfEven_le_round x
      rw [round_eq] at h1
      rw [hrh]
      omega
    · -- tie at `y` with odd floor: result is `⌊y⌋ + 1 = round y`
      have hrh : roundHalfEven y = ⌊y⌋ + 1 := by
        unfold roundHalfEven; rw [if_pos hty, if_neg hey]
      have hr : round y = ⌊y⌋ + 1 := round_tie_eq y hty
      have h1 := le_trans (roundHalfEven_le_round x) (round_rat_mono h)
      rw [hrh]
      omega
  · have hrh : roundHalfEven y = round y := by
      unfold roundHalfEven; rw [if_neg hty]
    rw [hrh]
    exact le_trans (roundHalfEven_le_round x) (round_rat_mono h)

theorem round1_mono {x y : ℚ} (h : x ≤ y) : round1 x ≤ round1 y := by
  unfold round1
  have h10 : (10 : ℚ) * x ≤ 10 * y := by linarith
  have h2 : ((roundHalfEven (10 * x) : ℤ) : ℚ) ≤ ((roundHalfEven (10 * y) : ℤ) : ℚ) := by
    exact_mod_cast roundHalfEven_mono h10
  linarith

/-! ### List min / mean / max lemmas -/

theorem foldl_min_le_init (xs : List ℚ) (a : ℚ) : xs.foldl min a ≤ a := by
  induction xs generalizing a with
  | nil => exact le_refl a
  | cons y ys ih => exact le_trans (ih (min a y)) (min_le_left a y)

theorem foldl_min_le_mem {y : ℚ} {xs : List ℚ} (hy : y ∈ xs) (a : ℚ) :
    xs.foldl min a ≤ y := by
  induction xs generalizing a with
  | nil => cases hy
  | cons z zs ih =>
    rcases List.mem_cons.mp hy with rfl | hz
    · exact le_trans (foldl_min_le_init zs (min a y)) (min_le_right a y)
    · exact ih hz (min a z)

theorem pyMin_le_mem {y : ℚ} {xs : List ℚ} (hy : y ∈ xs) : pyMin xs ≤ y := by
  cases xs with
  | nil => cases hy
  | cons x t =>
    show t.foldl min x ≤ y
    rcases List.mem_cons.mp hy with rfl | ht
    · exact foldl_min_le_init t y
    · exact foldl_min_le_mem ht x

theorem init_le_foldl_max (xs : List ℚ) (a : ℚ) : a ≤ xs.foldl max a := by
  induction xs generalizing a with
  | nil => exact le_refl a
  | cons y ys ih => exact le_trans (le_max_left a y) (ih (max a y))

theorem mem_le_foldl_max {y : ℚ} {xs : List ℚ} (hy : y ∈ xs) (a : ℚ) :
    y ≤ xs.foldl max a := by
  induction xs generalizing a with
  | nil => cases hy
  | cons z zs ih =>
    rcases List.mem_cons.mp hy with rfl | hz
    · exact le_trans (le_max_right a y) (init_le_foldl_max zs (max a y))
    · exact ih hz (max a z)

theorem mem_le_pyMax {y : ℚ} {xs : List ℚ} (hy : y ∈ xs) : y ≤ pyMax xs := by
  cases xs with
  | nil => cases hy
  | cons x t =>
    show y ≤ t.foldl max x
    rcases List.mem_cons.mp hy with rfl | ht
    · exact init_le_foldl_max t y
    · exact mem_le_foldl_max ht x

theorem mul_length_le_sum {a : ℚ} {l : List ℚ} (h : ∀ y ∈ l, a ≤ y) :
    a * l.length ≤ l.sum := by
  induction l with
  | nil => simp
  | cons x t ih =>
    have hx : a ≤ x := h x (List.mem_cons_self x t)
    have ht : a * t.length ≤ t.sum := ih fun y hy => h y (List.mem_cons_of_mem x hy)
    simp only [List.length_cons, List.sum_cons]
    push_cast
    linarith

theorem sum_le_mul_length {a : ℚ} {l : List ℚ} (h : ∀ y ∈ l, y ≤ a) :
    l.sum ≤ a * l.length := by
  induction l with
  | nil => simp
  | cons x t ih =>
    have hx : x ≤ a := h x (List.mem_cons_self x t)
    have ht : t.sum ≤ a * t.length := ih fun y hy => h y (List.mem_cons_of_mem x hy)
    simp only [List.length_cons, List.sum_cons]
    push_cast
    linarith

theorem pyMin_le_mean {l : List ℚ} (h : l ≠ []) :
    pyMin l ≤ l.sum / l.length := by
  have hlen : (0 : ℚ) < l.length := by
    have := List.length_pos.mpr h
    exact_mod_cast this
  rw [le_div_iff₀ hlen]
  exact mul_length_le_sum fun y hy => pyMin_le_mem hy

theorem mean_le_pyMax {l : List ℚ} (h : l ≠ []) :
    l.sum / l.length ≤ pyMax l := by
  have hlen : (0 : ℚ) < l.length := by
    have := List.length_pos.mpr h
    exact_mod_cast this
  rw [div_le_iff₀ hlen]
  exact sum_le_mul_length fun y hy => mem_le_pyMax hy

/-! ### First-maximum fold lemmas (Python `max(iterable, key=k)`) -/

theorem foldl_bestBy_mem (key : String → ℕ) (xs : List String) :
    ∀ a : String,
      xs.foldl (fun best y => if key y > key best then y else best) a ∈ a :: xs := by
  induction xs with
  | nil => intro a; exact List.mem_singleton.mpr rfl
  | cons z zs ih =>
    intro a
    rw [List.foldl_cons]
    have hstep : (if key z > key a then z else a) ∈ [a, z] := by
      split <;> simp
    have h1 := ih (if key z > key a then z else a)
    rcases List.mem_cons.mp h1 with heq | hmem
    · rw [heq]
      rcases List.mem_pair.mp hstep with h | h <;> rw [h] <;> simp
    · exact List.mem_cons_of_mem _ (List.mem_cons_of_mem _ hmem)

theorem key_le_foldl_bestBy (key : String → ℕ) (xs : List String) :
    ∀ a : String, ∀ y ∈ a :: xs,
      key y ≤ key (xs.foldl (fun best y => if key y > key best then y else best) a) := by
  induction xs with
  | nil =>
    intro a y hy
    rcases List.mem_cons.mp hy with rfl | h
    · exact le_refl _
    · cases h
  | cons z zs ih =>
    intro a y hy
    rw [List.foldl_cons]
    have hstep_a : key a ≤ key (if key z > key a then z else a) := by
      split
      · next hgt => exact le_of_lt hgt
      · exact le_refl _
    have hstep_z : key z ≤ key (if key z > key a then z else a) := by
      split
      · exact le_refl _
      · next hngt => exact Nat.le_of_not_lt hngt
    rcases List.mem_cons.mp hy with rfl | h
    · exact le_trans hstep_a (ih _ _ (List.mem_cons_self _ _))
    · rcases List.mem_cons.mp h with rfl | h2
      · exact le_trans hstep_z (ih _ _ (List.mem_cons_self _ _))
      · exact ih _ _ (List.mem_cons_of_mem _ h2)

theorem pyMaxByKey_mem (key : String → ℕ) {l : List String} (h : l ≠ []) :
    pyMaxByKey key l ∈ l := by
  cases l with
  | nil => exact absurd rfl h
  | cons x xs => exact foldl_bestBy_mem key xs x

theorem key_le_pyMaxByKey (key : String → ℕ) {y : String} {l : List String}
    (hy : y ∈ l) : key y ≤ key (pyMaxByKey key l) := by
  cases l with
  | nil => cases hy
  | cons x xs => exact key_le_foldl_bestBy key xs x y hy

/-! ### Penalty bounds -/

theorem temp_penalty_nonneg (pmin pmax t : ℚ) : 0 ≤ temp_penalty pmin pmax t := by
  unfold temp_penalty
  split_ifs with h1 h2
  · exact le_min (by linarith) (by norm_num)
  · exact le_min (by linarith) (by norm_num)
  · have := abs_nonneg (t - (pmin + pmax) / 2)
    linarith

theorem rain_penalty_nonneg (r : ℚ) : 0 ≤ rain_penalty r := by
  unfold rain_penalty; split_ifs <;> norm_num

theorem wind_penalty_nonneg (w : ℚ) : 0 ≤ wind_penalty w := by
  unfold wind_penalty; split_ifs <;> norm_num

theorem humidity_penalty_nonneg (h : ℚ) : 0 ≤ humidity_penalty h := by
  unfold humidity_penalty; split_ifs <;> norm_num

/-! ### Claim theorems -/

/-- C1: for every daily summary and every preferred temperature range,
`calculate_day_score` returns a score `s` with `0 ≤ s ≤ 100`: the result
is floored at 0 and, since every deduction is non-negative and the
starting value is 100, it never exceeds 100. -/
theorem claim_C1_score_within_bounds (pmin pmax : ℚ) (day : DailySummary) :
    0 ≤ calculate_day_score pmin pmax day ∧ calculate_day_score pmin pmax day ≤ 100 := by
  have h1 := temp_penalty_nonneg pmin pmax day.temp_avg
  have h2 := rain_penalty_nonneg day.rain_probability
  have h3 := wind_penalty_nonneg day.max_wind_speed
  have h4 := humidity_penalty_nonneg day.avg_humidity
  unfold calculate_day_score
  exact ⟨le_max_right _ _, max_le (by linarith) (by norm_num)⟩

/-- C2 counterexample: with preferred range 15-25, the day of the spec's
worked example (temp_avg=40, rain_probability=80, max_wind_speed=20,
avg_humidity=90) does NOT score 0.0 — the temperature deduction is
`min((40 - 25) * 2, 40) = 30`, not 40. -/
theorem claim_C2_counterexample :
    calculate_day_score 15 25
      { date := "2024-01-01", temp_avg := 40, temp_min := 35, temp_max := 45,
        avg_humidity := 90, max_wind_speed := 20, rain_probability := 80,
        description := "Sunny" } ≠ 0 := by
  norm_num [calculate_day_score, temp_penalty, rain_penalty, wind_penalty,
    humidity_penalty]

/-- C2 amended: with preferred range 15-25, `calculate_day_score` on a
day with temp_avg=40, rain_probability=80, max_wind_speed=20,
avg_humidity=90 returns exactly 10.0 — deductions 30 for temperature
(`min((40 - 25) * 2, 40)`), 30 for rain, 15 for wind, 15 for humidity,
with no clamping needed. -/
theorem claim_C2_amended_score_is_ten :
    calculate_day_score 15 25
      { date := "2024-01-01", temp_avg := 40, temp_min := 35, temp_max := 45,
        avg_humidity := 90, max_wind_speed := 20, rain_probability := 80,
        description := "Sunny" } = 10 := by
  norm_num [calculate_day_score, temp_penalty, rain_penalty, wind_penalty,
    humidity_penalty]

/-- C3: for every non-empty group of forecast entries of one calendar
date, the daily summary built by `get_daily_summary` satisfies
`temp_min ≤ temp_avg ≤ temp_max`, where `temp_avg` is the rounded
arithmetic mean and `temp_min`/`temp_max` the rounded minimum and maximum
of the same temperature list. -/
theorem claim_C3_temp_min_le_avg_le_max (date : String) (entries : List ForecastEntry)
    (setOrder : List String) (h : entries ≠ []) :
    (summarizeDay date entries setOrder).temp_min ≤
        (summarizeDay date entries setOrder).temp_avg ∧
      (summarizeDay date entries setOrder).temp_avg ≤
        (summarizeDay date entries setOrder).temp_max := by
  have hts : entries.map (fun e => e.temperature) ≠ [] := by
    simpa using h
  exact ⟨round1_mono (pyMin_le_mean hts), round1_mono (mean_le_pyMax hts)⟩

/-- C3 witness: the invariant at a concrete two-entry day. -/
theorem claim_C3_witness :
    (([⟨20, "Sunny", 50, 3, 10⟩, ⟨25, "Rain", 60, 5, 40⟩] : List ForecastEntry) ≠ [] ∧
      (summarizeDay "2024-01-01" [⟨20, "Sunny", 50, 3, 10⟩, ⟨25, "Rain", 60, 5, 40⟩]
            ["Sunny", "Rain"]).temp_min ≤
          (summarizeDay "2024-01-01" [⟨20, "Sunny", 50, 3, 10⟩, ⟨25, "Rain", 60, 5, 40⟩]
            ["Sunny", "Rain"]).temp_avg ∧
      (summarizeDay "2024-01-01" [⟨20, "Sunny", 50, 3, 10⟩, ⟨25, "Rain", 60, 5, 40⟩]
            ["Sunny", "Rain"]).temp_avg ≤
        (summarizeDay "2024-01-01" [⟨20, "Sunny", 50, 3, 10⟩, ⟨25, "Rain", 60, 5, 40⟩]
            ["Sunny", "Rain"]).temp_max) :=
  ⟨List.cons_ne_nil _ _,
    (claim_C3_temp_min_le_avg_le_max "2024-01-01" _ ["Sunny", "Rain"]
      (List.cons_ne_nil _ _)).1,
    (claim_C3_temp_min_le_avg_le_max "2024-01-01" _ ["Sunny", "Rain"]
      (List.cons_ne_nil _ _)).2⟩

/-- C4 counterexample: the claim's tie-break ("the one first encountered
in the group's order") fails on the code.  For the group with
descriptions ["a", "b", "b", "a"], the set-iteration order ["b", "a"] is
a legitimate order of `set(descriptions)` (a permutation of the distinct
descriptions), yet the chosen description is "b" while the
first-encountered most-frequent description is "a". -/
theorem claim_C4_counterexample :
    (["b", "a"] : List String).Perm
        (([⟨20, "a", 50, 3, 10⟩, ⟨21, "b", 50, 3, 10⟩, ⟨22, "b", 50, 3, 10⟩,
            ⟨23, "a", 50, 3, 10⟩] : List ForecastEntry).map
          (fun e => e.description)).dedup ∧
      (summarizeDay "2024-01-01"
          [⟨20, "a", 50, 3, 10⟩, ⟨21, "b", 50, 3, 10⟩, ⟨22, "b", 50, 3, 10⟩,
            ⟨23, "a", 50, 3, 10⟩] ["b", "a"]).description = "b" ∧
      firstEncounteredMode
          (([⟨20, "a", 50, 3, 10⟩, ⟨21, "b", 50, 3, 10⟩, ⟨22, "b", 50, 3, 10⟩,
              ⟨23, "a", 50, 3, 10⟩] : List ForecastEntry).map
            (fun e => e.description)) = "a" ∧
      ("b" : String) ≠ "a" :=
  ⟨by decide, rfl, rfl, by decide⟩

/-- C4 amended: the description field of a day's summary is always one of
that day's description strings and has maximal occurrence count among
them; when several descriptions tie for the highest count, the chosen one
depends on the iteration order of `set(descriptions)` (arbitrary), not
necessarily on first-encountered group order. -/
theorem summarizeDay_description (date : String) (entries : List ForecastEntry)
    (setOrder : List String) :
    (summarizeDay date entries setOrder).description =
      pyMaxByKey (fun s => (entries.map (fun e => e.description)).count s) setOrder := rfl

theorem claim_C4_description_is_modal (date : String) (entries : List ForecastEntry)
    (setOrder : List String) (hne : entries ≠ [])
    (hperm : setOrder.Perm (entries.map (fun e => e.description)).dedup) :
    (summarizeDay date entries setOrder).description ∈
        entries.map (fun e => e.description) ∧
      ∀ s ∈ entries.map (fun e => e.description),
        (entries.map (fun e => e.description)).count s ≤
          (entries.map (fun e => e.description)).count
            ((summarizeDay date entries setOrder).description) := by
  rw [summarizeDay_description]
  have hdne : entries.map (fun e => e.description) ≠ [] := by
    simpa using hne
  have hdedup_ne : (entries.map (fun e => e.description)).dedup ≠ [] := by
    intro hc
    exact hdne ((List.dedup_eq_nil _).mp hc)
  have hone : setOrder ≠ [] := by
    intro hc
    rw [hc] at hperm
    exact hdedup_ne hperm.symm.eq_nil
  have hmem_order :
      (summarizeDay date entries setOrder).description ∈ setOrder :=
    pyMaxByKey_mem _ hone
  constructor
  · exact List.mem_dedup.mp (hperm.mem_iff.mp hmem_order)
  · intro s hs
    have hs2 : s ∈ setOrder := hperm.mem_iff.mpr (List.mem_dedup.mpr hs)
    exact key_le_pyMaxByKey (fun t => (entries.map (fun e => e.description)).count t) hs2

/-- C4 witness: the amended claim at a concrete one-entry day. -/
theorem claim_C4_witness :
    ((([⟨20, "Sunny", 50, 3, 10⟩] : List ForecastEntry) ≠ []) ∧
      (["Sunny"] : List String).Perm
        (([⟨20, "Sunny", 50, 3, 10⟩] : List ForecastEntry).map
          (fun e => e.description)).dedup) ∧
      (summarizeDay "2024-01-01" [⟨20, "Sunny", 50, 3, 10⟩] ["Sunny"]).description ∈
          ([⟨20, "Sunny", 50, 3, 10⟩] : List ForecastEntry).map (fun e => e.description) ∧
        ∀ s ∈ ([⟨20, "Sunny", 50, 3, 10⟩] : List ForecastEntry).map (fun e => e.description),
          (([⟨20, "Sunny", 50, 3, 10⟩] : List ForecastEntry).map
              (fun e => e.description)).count s ≤
            (([⟨20, "Sunny", 50, 3, 10⟩] : List ForecastEntry).map
                (fun e => e.description)).count
              ((summarizeDay "2024-01-01" [⟨20, "Sunny", 50, 3, 10⟩] ["Sunny"]).description) :=
  ⟨⟨List.cons_ne_nil _ _, by decide⟩,
    claim_C4_description_is_modal "2024-01-01" _ ["Sunny"]
      (List.cons_ne_nil _ _) (by decide)⟩

/-- C5 counterexample: a fetch failure IS silently swallowed —
`compare_days` maps it to a plain empty list, byte-for-byte identical to
its result on a successful empty forecast, and `find_comfortable_days`
does the same. -/
theorem claim_C5_counterexample :
    compare_days 15 25 (.error "network timeout") = [] ∧
      compare_days 15 25 (.ok []) = [] ∧
      find_comfortable_days 15 25 (.error "network timeout") = [] ∧
      find_comfortable_days 15 25 (.ok []) = [] :=
  ⟨rfl, rfl, rfl, rfl⟩

/-- C5 amended: `find_best_day` surfaces a fetch failure as an
error-shaped result and `check_current_temperature` as an error-status
alert, but `compare_days` and `find_comfortable_days` map any fetch
failure to the plain empty list, indistinguishable from a successful
empty result. -/
theorem claim_C5_amended_error_reporting (pmin pmax : ℚ) (e : String) :
    find_best_day pmin pmax (.error e) =
        .error ("Error analyzing forecast: " ++ e) ∧
      (check_current_temperature pmin pmax (.error e)).status = Status.error ∧
      compare_days pmin pmax (.error e) = [] ∧
      compare_days pmin pmax (.ok []) = [] ∧
      find_comfortable_days pmin pmax (.error e) = [] ∧
      find_comfortable_days pmin pmax (.ok []) = [] :=
  ⟨rfl, rfl, rfl, rfl, rfl, rfl⟩

/-- C6: `find_best_day` never raises: on an empty daily-summary list it
returns the error result "No forecast data available" (and hence no
score), and on a fetch failure it returns an error result whose message
carries the failure's description. -/
theorem claim_C6_find_best_day_failure_modes (pmin pmax : ℚ) (e : String) :
    find_best_day pmin pmax (.error e) =
        .error ("Error analyzing forecast: " ++ e) ∧
      find_best_day pmin pmax (.ok []) = .error "No forecast data available" :=
  ⟨rfl, rfl⟩

/-- C8: `check_current_temperature` classifies a reading into exactly one
status (comfortable by default, too_cold below the range, too_hot above),
with band-based severity (high when more than 10 degrees outside, else
medium, else none) unconditionally overridden to extreme below 0°C or
above 35°C as a final layer; temperature -5 with range [15, 25] yields
status too_cold and severity extreme. -/
theorem claim_C8_alert_classification (pmin pmax temp : ℚ) :
    ((check_current_temperature pmin pmax (.ok temp)).status =
        (if temp < pmin then Status.too_cold
         else if temp > pmax then Status.too_hot
         else Status.comfortable) ∧
      (check_current_temperature pmin pmax (.ok temp)).severity =
        (if temp < 0 ∨ temp > 35 then Severity.extreme
         else if temp < pmin then
           (if pmin - temp > 10 then Severity.high else Severity.medium)
         else if temp > pmax then
           (if temp - pmax > 10 then Severity.high else Severity.medium)
         else Severity.sevNone)) ∧
      (check_current_temperature 15 25 (.ok (-5))).status = Status.too_cold ∧
      (check_current_temperature 15 25 (.ok (-5))).severity = Severity.extreme := by
  refine ⟨⟨?_, ?_⟩, by norm_num [check_current_temperature],
    by norm_num [check_current_temperature]⟩
  · simp only [check_current_temperature]
    split_ifs <;> rfl
  · simp only [check_current_temperature]
    split_ifs <;> first | rfl | tauto

/-- C10: the extreme override of `check_current_temperature` ignores the
status, so status comfortable with severity extreme is reachable: with
comfortable range [-10, 25] and temperature -5 (inside the band but below
0°C) the alert is comfortable / extreme and carries the extreme-cold
message, not the comfortable message. -/
theorem claim_C10_comfortable_extreme_reachable :
    (check_current_temperature (-10) 25 (.ok (-5))).status = Status.comfortable ∧
      (check_current_temperature (-10) 25 (.ok (-5))).severity = Severity.extreme ∧
      (check_current_temperature (-10) 25 (.ok (-5))).message =
        MessageKind.extremeColdMsg ∧
      MessageKind.extremeColdMsg ≠ MessageKind.comfortableMsg := by
  refine ⟨?_, ?_, ?_, by decide⟩ <;> norm_num [check_current_temperature]

/-- C9: `find_comfortable_days` keeps exactly the days whose average
temperature lies in [min, max] AND whose temp_min is at least min - 5 AND
whose temp_max is at most max + 5 (equivalently: its loop is that filter,
projected to the output fields); with range [15, 25] a day with
temp_avg=24, temp_min=9, temp_max=29 is excluded even though its average
is in range. -/
theorem claim_C9_comfortable_days_filter :
    (∀ (pmin pmax : ℚ) (l : List DailySummary),
        comfortableLoop pmin pmax l =
          (l.filter fun d =>
            decide (pmin ≤ d.temp_avg ∧ d.temp_avg ≤ pmax ∧
              d.temp_min ≥ pmin - 5 ∧ d.temp_max ≤ pmax + 5)).map comfortableProj) ∧
      find_comfortable_days 15 25
        (.ok [{ date := "2024-01-01", temp_avg := 24, temp_min := 9, temp_max := 29,
                avg_humidity := 50, max_wind_speed := 3, rain_probability := 10,
                description := "Sunny" }]) = [] := by
  constructor
  · intro pmin pmax l
    induction l with
    | nil => rfl
    | cons d rest ih =>
      simp only [comfortableLoop, List.filter_cons]
      by_cases h1 : pmin ≤ d.temp_avg ∧ d.temp_avg ≤ pmax
      · by_cases h2 : d.temp_min ≥ pmin - 5 ∧ d.temp_max ≤ pmax + 5
        · have hc : pmin ≤ d.temp_avg ∧ d.temp_avg ≤ pmax ∧
              d.temp_min ≥ pmin - 5 ∧ d.temp_max ≤ pmax + 5 := ⟨h1.1, h1.2, h2.1, h2.2⟩
          rw [if_pos h1, if_pos h2, if_pos (decide_eq_true hc), List.map_cons, ih]
        · have hc : ¬(pmin ≤ d.temp_avg ∧ d.temp_avg ≤ pmax ∧
              d.temp_min ≥ pmin - 5 ∧ d.temp_max ≤ pmax + 5) := by tauto
          rw [if_pos h1, if_neg h2, if_neg ?_, ih]
          simp only [decide_eq_false hc]
          exact Bool.false_ne_true
      · have hc : ¬(pmin ≤ d.temp_avg ∧ d.temp_avg ≤ pmax ∧
            d.temp_min ≥ pmin - 5 ∧ d.temp_max ≤ pmax + 5) := by tauto
        rw [if_neg h1, if_neg ?_, ih]
        simp only [decide_eq_false hc]
        exact Bool.false_ne_true
  · norm_num [find_comfortable_days, comfortableLoop]

/-- Python `round(x, 1)` of an integer value is that value. -/
theorem round1_intCast (n : ℤ) : round1 (n : ℚ) = n := by
  unfold round1 roundHalfEven
  have h1 : (10 : ℚ) * (n : ℚ) = ((10 * n : ℤ) : ℚ) := by push_cast; ring
  rw [h1, Int.floor_intCast, round_intCast, sub_self]
  rw [if_neg (by norm_num)]
  push_cast
  ring

/-- Inserting an element into a list commutes with filtering the entries
of a fixed score: the element lands in front of the retained entries when
it carries that score and changes nothing otherwise. -/
theorem filter_orderedInsert_score (s : ℚ) (a : CompareEntry) (l : List CompareEntry) :
    (l.orderedInsert scoreDescRel a).filter (fun x => decide (x.score = s)) =
      if a.score = s
      then a :: l.filter (fun x => decide (x.score = s))
      else l.filter (fun x => decide (x.score = s)) := by
  induction l with
  | nil =>
    rw [List.orderedInsert]
    by_cases h : a.score = s
    · rw [List.filter_cons, if_pos (by simp [h]), if_pos h]
    · rw [List.filter_cons, if_neg (by simp [h]), if_neg h]
  | cons b t ih =>
    rw [List.orderedInsert]
    by_cases hr : scoreDescRel a b
    · rw [if_pos hr]
      by_cases h : a.score = s
      · rw [List.filter_cons, if_pos (by simp [h]), if_pos h]
      · rw [List.filter_cons, if_neg (by simp [h]), if_neg h]
    · rw [if_neg hr, List.filter_cons]
      by_cases h : a.score = s
      · have hb : ¬(b.score = s) := by
          intro hbs
          exact hr (le_of_eq (hbs.trans h.symm))
        rw [if_neg (by simp [hb]), ih, if_pos h, if_pos h, List.filter_cons,
          if_neg (by simp [hb])]
      · rw [ih, if_neg h, if_neg h, List.filter_cons]

/-- The stable insertion sort preserves, for every score value, the list of
entries carrying it in order. -/
theorem filter_insertionSort_score (s : ℚ) (l : List CompareEntry) :
    (List.insertionSort scoreDescRel l).filter (fun x => decide (x.score = s)) =
      l.filter (fun x => decide (x.score = s)) := by
  induction l with
  | nil => rfl
  | cons x t ih =>
    rw [List.insertionSort, filter_orderedInsert_score, ih, List.filter_cons]
    by_cases h : x.score = s
    · rw [if_pos h, if_pos (by simp [h])]
    · rw [if_neg h, if_neg (by simp [h])]

end WeatherDashboard

namespace WeatherDashboard

theorem mkCompareEntry_dayScore50 : (mkCompareEntry 15 25 dayScore50).score = 50 := by
  have hcalc : calculate_day_score 15 25 dayScore50 = 50 := by
    norm_num [calculate_day_score, temp_penalty, rain_penalty, wind_penalty,
      humidity_penalty, dayScore50]
  show round1 (calculate_day_score 15 25 dayScore50) = 50
  rw [hcalc]
  exact_mod_cast round1_intCast 50

theorem mkCompareEntry_dayScore80a : (mkCompareEntry 15 25 dayScore80a).score = 80 := by
  have hcalc : calculate_day_score 15 25 dayScore80a = 80 := by
    norm_num [calculate_day_score, temp_penalty, rain_penalty, wind_penalty,
      humidity_penalty, dayScore80a]
  show round1 (calculate_day_score 15 25 dayScore80a) = 80
  rw [hcalc]
  exact_mod_cast round1_intCast 80

theorem mkCompareEntry_dayScore80b : (mkCompareEntry 15 25 dayScore80b).score = 80 := by
  have hcalc : calculate_day_score 15 25 dayScore80b = 80 := by
    norm_num [calculate_day_score, temp_penalty, rain_penalty, wind_penalty,
      humidity_penalty, dayScore80b]
  show round1 (calculate_day_score 15 25 dayScore80b) = 80
  rw [hcalc]
  exact_mod_cast round1_intCast 80

/-- C7: `compare_days` on a successful fetch returns the scored days as a
stable descending sort by score: the output is a permutation of the
per-day entries, sorted by non-increasing score, and for every score
value the entries carrying it appear in their original relative order
(which pins the stable tie-break); for input days scoring [50, 80, 80]
the output order is [80a, 80b, 50]. -/
theorem claim_C7_compare_days_stable_descending :
    (∀ (pmin pmax : ℚ) (l : List DailySummary),
        (compare_days pmin pmax (.ok l)).Perm (l.map (mkCompareEntry pmin pmax)) ∧
          List.Sorted scoreDescRel (compare_days pmin pmax (.ok l)) ∧
          ∀ s : ℚ,
            (compare_days pmin pmax (.ok l)).filter (fun x => decide (x.score = s)) =
              (l.map (mkCompareEntry pmin pmax)).filter (fun x => decide (x.score = s))) ∧
      ((mkCompareEntry 15 25 dayScore50).score = 50 ∧
        (mkCompareEntry 15 25 dayScore80a).score = 80 ∧
        (mkCompareEntry 15 25 dayScore80b).score = 80) ∧
      compare_days 15 25 (.ok [dayScore50, dayScore80a, dayScore80b]) =
        [mkCompareEntry 15 25 dayScore80a, mkCompareEntry 15 25 dayScore80b,
          mkCompareEntry 15 25 dayScore50] := by
  refine ⟨fun pmin pmax l => ⟨List.perm_insertionSort scoreDescRel _,
      List.sorted_insertionSort scoreDescRel _,
      fun s => filter_insertionSort_score s _⟩,
    ⟨mkCompareEntry_dayScore50, mkCompareEntry_dayScore80a, mkCompareEntry_dayScore80b⟩, ?_⟩
  have hr1 : scoreDescRel (mkCompareEntry 15 25 dayScore80a) (mkCompareEntry 15 25 dayScore80b) := by
    show (mkCompareEntry 15 25 dayScore80b).score ≤ (mkCompareEntry 15 25 dayScore80a).score
    rw [mkCompareEntry_dayScore80a, mkCompareEntry_dayScore80b]
  have hr2 : ¬ scoreDescRel (mkCompareEntry 15 25 dayScore50) (mkCompareEntry 15 25 dayScore80a) := by
    show ¬((mkCompareEntry 15 25 dayScore80a).score ≤ (mkCompareEntry 15 25 dayScore50).score)
    rw [mkCompareEntry_dayScore80a, mkCompareEntry_dayScore50]
    norm_num
  have hr3 : ¬ scoreDescRel (mkCompareEntry 15 25 dayScore50) (mkCompareEntry 15 25 dayScore80b) := by
    show ¬((mkCompareEntry 15 25 dayScore80b).score ≤ (mkCompareEntry 15 25 dayScore50).score)
    rw [mkCompareEntry_dayScore80b, mkCompareEntry_dayScore50]
    norm_num
  have e2 : List.orderedInsert scoreDescRel (mkCompareEntry 15 25 dayScore80a)
      [mkCompareEntry 15 25 dayScore80b] =
      [mkCompareEntry 15 25 dayScore80a, mkCompareEntry 15 25 dayScore80b] := by
    rw [List.orderedInsert, if_pos hr1]
  have e3 : List.orderedInsert scoreDescRel (mkCompareEntry 15 25 dayScore50)
      [mkCompareEntry 15 25 dayScore80a, mkCompareEntry 15 25 dayScore80b] =
      [mkCompareEntry 15 25 dayScore80a, mkCompareEntry 15 25 dayScore80b,
        mkCompareEntry 15 25 dayScore50] := by
    rw [List.orderedInsert, if_neg hr2, List.orderedInsert, if_neg hr3, List.orderedInsert]
  have h0 : compare_days 15 25 (.ok [dayScore50, dayScore80a, dayScore80b]) =
      List.orderedInsert scoreDescRel (mkCompareEntry 15 25 dayScore50)
        (List.orderedInsert scoreDescRel (mkCompareEntry 15 25 dayScore80a)
          [mkCompareEntry 15 25 dayScore80b]) := rfl
  rw [h0, e2, e3]

end WeatherDashboard
